import Mathlib

/-!
Shallow embedding of the `PlayRec` call-flow app from
`src/switchy/apps/players.py`.

The app orchestrates one bridged call: two sessions (legs), the inbound
leg being the callee and the outbound leg the caller.  Each event handler
of the Python class is translated into a Lean function from an explicit
state to a new state plus the list of media commands it issues.  Python
dictionary accesses that can raise `KeyError` are modelled by an `err`
field in the result: the mutations and commands performed before the
raise are kept (as in Python, where they have already happened when the
exception propagates), and the rest of the handler body is skipped.

Machine details kept faithful to the source:
  * `call.vars.get('record')` defaults to falsy: field `record : Bool`
    starting `false`, only ever set to `true`.
  * `sess.vars['clip']` / `call.vars['playback_count']` /
    `call.vars['iterations']` / `call.vars['tail']` raise `KeyError`
    when unset: modelled as `Option` with an error on `none`.
  * `self.call2recs` is keyed by call uuid; with a single call it is an
    `Option RecEntry` (`none` = no entry, i.e. `KeyError` on lookup).
  * Floats (`tail`, `clip_length`, durations) are modelled as `Rat`;
    the spec's own numeric examples are exact in `Rat`.
-/

namespace Switchio

/-- Clip tag stored in `sess.vars['clip']`. -/
inductive Clip
  | signal
  | silence
deriving DecidableEq, Repr

/-- Leg (session) direction. -/
inductive Dir
  | inbound
  | outbound
deriving DecidableEq, Repr

/-- The peer leg of a bridged two-leg call. -/
def Dir.other : Dir → Dir
  | .inbound => .outbound
  | .outbound => .inbound

/-- Per-session mutable state (`sess.vars` plus the hangup flag). -/
structure LegSt where
  clip : Option Clip := none
  recorded : Option Bool := none
  hungup : Bool := false
deriving DecidableEq, Repr

/-- One entry of `self.call2recs`: recording paths per role. -/
structure RecEntry where
  caller : Option String := none
  callee : Option String := none
deriving DecidableEq, Repr

/-- Per-call shared state (`call.vars`). -/
structure CallVarsSt where
  record : Bool := false
  iterations : Option Rat := none
  tail : Option Rat := none
  noautohangup : Bool := false
  playback_count : Option Nat := none
deriving DecidableEq, Repr

/-- App-instance state set up by `PlayRec.prepost` (config plus the
process-wide rate counter and the recording registry, restricted to the
single call under consideration). -/
structure AppSt where
  call_count : Nat := 0
  rec_rate : Nat := 1
  iterations : Rat := 1
  tail : Rat := 1
  stereo : Bool := false
  hasCallback : Bool := true
  call2recs : Option RecEntry := none
  recsdir : String := "/recs"
  host : String := "fs-host"
  audiofile : String := "/sounds/ivr/8000/ivr-founder_of_freesource.wav"
  silence : String := "silence_stream://0"
deriving DecidableEq, Repr

/-- Whole-state: app instance plus one call with its two legs. -/
structure St where
  app : AppSt := {}
  callVars : CallVarsSt := {}
  inb : LegSt := {}
  out : LegSt := {}
deriving DecidableEq, Repr

/-- Session uuid of the inbound (callee) leg. -/
def inbUuid : String := "callee-sess"

/-- Session uuid of the outbound (caller) leg. -/
def outUuid : String := "caller-sess"

/-- Session uuid for a direction. -/
def uuidOf : Dir → String
  | .inbound => inbUuid
  | .outbound => outUuid

/-- Read one leg's state. -/
def St.leg (s : St) : Dir → LegSt
  | .inbound => s.inb
  | .outbound => s.out

/-- Replace one leg's state. -/
def St.setLeg (s : St) (d : Dir) (l : LegSt) : St :=
  match d with
  | .inbound => { s with inb := l }
  | .outbound => { s with out := l }

/-- Media commands and callback invocations issued by the handlers. -/
inductive Action
  | answer (uuid : String)
  | playback (uuid : String) (file : String)
  | breakapp (uuid : String)
  | startRecord (uuid : String) (file : String) (stereo : Bool)
  | stopRecord (uuid : String) (delay : Rat)
  | schedHangup (uuid : String) (delay : Rat)
  | invokeCallback (host caller callee : String)
deriving DecidableEq, Repr

/-- Recognise the completion-callback action. -/
def Action.isCallback : Action → Bool
  | .invokeCallback _ _ _ => true
  | _ => false

/-- Result of one handler run: new state, issued actions, and the
`KeyError` (if any) that aborted the rest of the handler body. -/
structure Res where
  st : St
  acts : List Action
  err : Option String := none
deriving DecidableEq, Repr

/-- The rate-gate step inlined in `on_answer` (lines 113-124):
increment the counter, record iff `count % rate == 0`, and reset the
counter to 0 on a hit.  Returns (decision, new counter). -/
def gateStep (count rate : Nat) : Bool × Nat :=
  let c := count + 1
  if c % rate == 0 then (true, 0) else (false, c)

/-- Counter value after `n` answered inbound legs (starting at 0). -/
def gateState (rate : Nat) : Nat → Nat
  | 0 => 0
  | n + 1 => (gateStep (gateState rate n) rate).2

/-- Whether the rate gate marks the (0-based) `i`-th answered inbound
leg for recording. -/
def gateMarked (rate i : Nat) : Bool :=
  (gateStep (gateState rate i) rate).1

/-- `PlayRec.__setduration__`: `iterations, tail = divmod(value,
clip_length)`, then clamp `tail` up to `1.0`. -/
def setduration (clip_length value : Rat) : Rat × Rat :=
  let q : Int := ⌊value / clip_length⌋
  let r : Rat := value - (q : Rat) * clip_length
  ((q : Rat), if r < 1 then 1 else r)

/-- A Python callable as seen by `inspect` in `PlayRec.prepost`. -/
structure PyCallable where
  isFunction : Bool
  argCount : Nat
deriving DecidableEq, Repr

/-- The construction-time callback validation in `PlayRec.prepost`
(lines 63-65): `None` passes; otherwise the object must be a function
whose argspec lists exactly one argument, else an `AssertionError` is
raised before any event is handled. -/
def prepostCheck : Option PyCallable → Bool
  | none => true
  | some c => c.isFunction && (c.argCount == 1)

/-- `PlayRec.on_create` (CHANNEL_CREATE): outbound legs are marked
`noautohangup`. -/
def on_create (s : St) (d : Dir) : Res :=
  match d with
  | .outbound =>
      { st := { s with callVars := { s.callVars with noautohangup := true } },
        acts := [] }
  | .inbound => { st := s, acts := [] }

/-- `PlayRec.on_park` (CHANNEL_PARK): answer the inbound leg. -/
def on_park (s : St) (d : Dir) : Res :=
  match d with
  | .inbound => { st := s, acts := [Action.answer inbUuid] }
  | .outbound => { st := s, acts := [] }

/-- `PlayRec.trigger_playback`: play infinite silence on the peer leg,
tag the peer's clip as silence, and reset the call's playback count. -/
def trigger_playback (s : St) (d : Dir) : St × List Action :=
  let p := d.other
  let s1 := s.setLeg p { s.leg p with clip := some Clip.silence }
  let s2 := { s1 with callVars := { s1.callVars with playback_count := some 0 } }
  (s2, [Action.playback (uuidOf p) s.app.silence])

/-- `PlayRec.on_answer` (CHANNEL_ANSWER).  Inbound: run the rate gate;
on a hit start recording the callee, register the callee path, set
`record`, reset the counter; always copy `iterations`/`tail` into the
call vars.  Outbound: if the call records, start recording the caller
and register the caller path; otherwise trigger the playback sequence. -/
def on_answer (s : St) (d : Dir) : Res :=
  match d with
  | .inbound =>
      let g := gateStep s.app.call_count s.app.rec_rate
      if g.1 then
        let filename := s.app.recsdir ++ "/callee_" ++ inbUuid ++ ".wav"
        let entry := s.app.call2recs.getD {}
        let s1 :=
          { s with
            app := { s.app with call_count := g.2,
                                call2recs := some { entry with callee := some filename } },
            callVars := { s.callVars with record := true,
                                          iterations := some s.app.iterations,
                                          tail := some s.app.tail } }
        { st := s1, acts := [Action.startRecord inbUuid filename s.app.stereo] }
      else
        let s1 :=
          { s with
            app := { s.app with call_count := g.2 },
            callVars := { s.callVars with iterations := some s.app.iterations,
                                          tail := some s.app.tail } }
        { st := s1, acts := [] }
  | .outbound =>
      if s.callVars.record then
        let filename := s.app.recsdir ++ "/caller_" ++ outUuid ++ ".wav"
        let entry := s.app.call2recs.getD {}
        { st := { s with app := { s.app with call2recs := some { entry with caller := some filename } } },
          acts := [Action.startRecord outUuid filename s.app.stereo] }
      else
        let t := trigger_playback s Dir.outbound
        { st := t.1, acts := t.2 }

/-- `PlayRec.on_play` (PLAYBACK_START): tag the leg's clip from the
played file path; on silence, break the peer's app and start the
reference clip on the peer. -/
def on_play (s : St) (d : Dir) (fp : String) : Res :=
  if fp == s.app.audiofile then
    { st := s.setLeg d { s.leg d with clip := some Clip.signal }, acts := [] }
  else if fp == s.app.silence then
    let s1 := s.setLeg d { s.leg d with clip := some Clip.silence }
    { st := s1,
      acts := [Action.breakapp (uuidOf d.other),
               Action.playback (uuidOf d.other) s.app.audiofile] }
  else
    { st := s, acts := [] }

/-- `PlayRec.on_stop` (PLAYBACK_STOP): on a signal clip, bump the
playback count; loop silence while more iterations are due; else stop
recording both legs (with `tail` delay) when recording, or schedule a
hangup after 0.5 s when not. -/
def on_stop (s : St) (d : Dir) : Res :=
  match (s.leg d).clip with
  | none => { st := s, acts := [], err := some "KeyError: clip" }
  | some Clip.silence => { st := s, acts := [] }
  | some Clip.signal =>
      match s.callVars.playback_count with
      | none => { st := s, acts := [], err := some "KeyError: playback_count" }
      | some n =>
          let s1 := { s with callVars := { s.callVars with playback_count := some (n + 1) } }
          match s1.callVars.iterations with
          | none => { st := s1, acts := [], err := some "KeyError: iterations" }
          | some its =>
              if ((n + 1 : Nat) : Rat) < its then
                { st := s1, acts := [Action.playback (uuidOf d) s.app.silence] }
              else if s1.callVars.record then
                match s1.callVars.tail with
                | none => { st := s1, acts := [], err := some "KeyError: tail" }
                | some t =>
                    { st := s1,
                      acts := [Action.stopRecord (uuidOf d) t,
                               Action.breakapp (uuidOf d.other),
                               Action.stopRecord (uuidOf d.other) t] }
              else
                { st := s1, acts := [Action.schedHangup (uuidOf d) (1 / 2)] }

/-- `PlayRec.on_rec` (RECORD_START): mark the leg as currently
recording; when the outbound leg starts recording, trigger playback. -/
def on_rec (s : St) (d : Dir) : Res :=
  let s1 := s.setLeg d { s.leg d with recorded := some false }
  match d with
  | .outbound =>
      let t := trigger_playback s1 Dir.outbound
      { st := t.1, acts := t.2 }
  | .inbound => { st := s1, acts := [] }

/-- `PlayRec.on_recstop` (RECORD_STOP): mark the leg recorded; if the
peer is recorded (defaulting to `true` when it never recorded),
schedule a hangup, look up the call's recording entry (`KeyError` when
absent), and if a callback is configured deliver
`RecInfo(host, caller, callee)` (`KeyError` on a missing role). -/
def on_recstop (s : St) (d : Dir) : Res :=
  let s1 := s.setLeg d { s.leg d with recorded := some true }
  if ((s1.leg d.other).recorded).getD true then
    let hang : List Action := [Action.schedHangup (uuidOf d) (1 / 2)]
    match s1.app.call2recs with
    | none => { st := s1, acts := hang, err := some "KeyError: call2recs" }
    | some recs =>
        if s1.app.hasCallback then
          match recs.caller with
          | none => { st := s1, acts := hang, err := some "KeyError: caller" }
          | some cp =>
              match recs.callee with
              | none => { st := s1, acts := hang, err := some "KeyError: callee" }
              | some ce =>
                  { st := s1, acts := hang ++ [Action.invokeCallback s1.app.host cp ce] }
        else
          { st := s1, acts := hang }
  else
    { st := s1, acts := [] }

/-- The six event kinds delivered to `PlayRec`, directed at one leg. -/
inductive Ev
  | create (d : Dir)
  | park (d : Dir)
  | answer (d : Dir)
  | playStart (d : Dir) (fp : String)
  | playStop (d : Dir)
  | recStart (d : Dir)
  | recStop (d : Dir)
deriving DecidableEq, Repr

/-- Dispatch one event to its handler. -/
def step (s : St) : Ev → Res
  | .create d => on_create s d
  | .park d => on_park s d
  | .answer d => on_answer s d
  | .playStart d fp => on_play s d fp
  | .playStop d => on_stop s d
  | .recStart d => on_rec s d
  | .recStop d => on_recstop s d

/-- Run a sequence of events, collecting all issued actions.  A handler
that raised keeps its partial effects (as in Python, where the event
loop logs the exception and keeps consuming events). -/
def runEvents : St → List Ev → St × List Action
  | s, [] => (s, [])
  | s, e :: rest =>
      let r := step s e
      let t := runEvents r.st rest
      (t.1, r.acts ++ t.2)

/-- Fresh state for one call, with the given recording rate and the
other configuration at the `prepost` defaults. -/
def initSt (rate : Nat) : St :=
  { app := { rec_rate := rate } }

/-- The protocol-order event prefix of one call under `rec_rate = 2`
(the gate does not fire on the first call, so `record` stays unset):
outbound leg created, inbound parked then answered, outbound answered
(which triggers the playback sequence), silence starts on the inbound
leg, and the reference clip starts on the outbound leg. -/
def evsSig : List Ev :=
  [Ev.create Dir.outbound, Ev.park Dir.inbound, Ev.answer Dir.inbound,
   Ev.answer Dir.outbound,
   Ev.playStart Dir.inbound "silence_stream://0",
   Ev.playStart Dir.outbound "/sounds/ivr/8000/ivr-founder_of_freesource.wav"]

/-- A call in which both legs started recording (both `recorded` flags
set to `false` by RECORD_START) and both recording paths are
registered. -/
def recReadySt : St :=
  { app := { call2recs := some { caller := some "cp", callee := some "ce" } },
    inb := { recorded := some false },
    out := { recorded := some false } }

/-- A call whose outbound leg carries the signal clip and whose last
due reference-clip play is finishing (`playback_count = 0`,
`iterations = 1`), with recording disabled. -/
def sigReadySt : St :=
  { callVars := { playback_count := some 0, iterations := some 1 },
    out := { clip := some Clip.signal } }

end Switchio

namespace Switchio

/-- The rate counter equals the number of answered inbound legs modulo
the period: each hit resets it, each miss increments it. -/
theorem gateState_mod (rate : Nat) (h : 1 ≤ rate) (n : Nat) :
    gateState rate n = n % rate := by
  induction n with
  | zero => simp [gateState]
  | succ n ih =>
      have key : (n % rate + 1) % rate = (n + 1) % rate := Nat.mod_add_mod n rate 1
      have hlt : n % rate < rate := Nat.mod_lt _ h
      simp only [gateState, gateStep, ih]
      cases hb : ((n % rate + 1) % rate == 0) with
      | true =>
          have hz : (n % rate + 1) % rate = 0 := by simpa using hb
          rw [key] at hz
          simp [hb, hz]
      | false =>
          have hz : (n % rate + 1) % rate ≠ 0 := by simpa using hb
          have hfin : n % rate + 1 < rate := by
            rcases Nat.lt_or_ge (n % rate + 1) rate with hl | hg
            · exact hl
            · have heq : n % rate + 1 = rate := by omega
              rw [heq, Nat.mod_self] at hz
              omega
          simp only [hb, Bool.false_eq_true, if_false]
          rw [← key, Nat.mod_eq_of_lt hfin]

/-- The gate marks the 0-based `i`-th answered inbound leg exactly when
`i + 1` is a multiple of the period. -/
theorem gateMarked_iff (rate i : Nat) (h : 1 ≤ rate) :
    gateMarked rate i = true ↔ (i + 1) % rate = 0 := by
  have key : (i % rate + 1) % rate = (i + 1) % rate := Nat.mod_add_mod i rate 1
  have hb : ((i % rate + 1) % rate == 0) = ((i + 1) % rate == 0) := by rw [key]
  simp only [gateMarked, gateStep, gateState_mod rate h i, hb]
  by_cases hz : (i + 1) % rate = 0
  · simp [hz]
  · simp [hz]

/-- No handler ever clears the per-call `record` flag. -/
theorem step_record_mono (s : St) (e : Ev) (h : s.callVars.record = true) :
    (step s e).st.callVars.record = true := by
  cases e with
  | create d => cases d <;> simp [step, on_create, h]
  | park d => cases d <;> simp [step, on_park, h]
  | answer d =>
      cases d <;> simp only [step, on_answer] <;> split <;>
        simp [h, trigger_playback, St.setLeg, St.leg]
  | playStart d fp =>
      cases d <;> simp only [step, on_play] <;> (repeat' split) <;>
        simp [h, St.setLeg, St.leg]
  | playStop d =>
      cases d <;> simp only [step, on_stop] <;> (repeat' split) <;> simp [h]
  | recStart d =>
      cases d <;> simp [step, on_rec, trigger_playback, St.setLeg, St.leg, Dir.other, h]
  | recStop d =>
      cases d <;> simp only [step, on_recstop, St.setLeg, St.leg, Dir.other] <;>
        (repeat' split) <;> simp [h]

/-- `record` stays set across any event sequence. -/
theorem run_record_mono (evs : List Ev) (s : St) (h : s.callVars.record = true) :
    (runEvents s evs).1.callVars.record = true := by
  induction evs generalizing s with
  | nil => simpa [runEvents] using h
  | cons e rest ih =>
      simp only [runEvents]
      exact ih (step s e).st (step_record_mono s e h)

/-- A call with no entry in `call2recs` can never have the completion
callback delivered by a single event: `on_recstop` hits the `KeyError`
before the delivery, and no other handler delivers it at all. -/
theorem step_no_callback (s : St) (e : Ev) (h : s.app.call2recs = none)
    (a b c : String) : Action.invokeCallback a b c ∉ (step s e).acts := by
  cases e with
  | create d => cases d <;> simp [step, on_create]
  | park d => cases d <;> simp [step, on_park]
  | answer d =>
      cases d <;> simp only [step, on_answer] <;> split <;>
        simp [trigger_playback, St.setLeg, St.leg, Dir.other]
  | playStart d fp =>
      cases d <;> simp only [step, on_play] <;> (repeat' split) <;>
        simp [St.setLeg, St.leg]
  | playStop d =>
      cases d <;> simp only [step, on_stop] <;> (repeat' split) <;> simp
  | recStart d =>
      cases d <;> simp [step, on_rec, trigger_playback, St.setLeg, St.leg, Dir.other]
  | recStop d =>
      cases d <;>
        simp only [step, on_recstop, St.setLeg, St.leg, Dir.other] <;>
        (repeat' split) <;> simp_all

/-- The only writes to `call2recs` happen in the same `on_answer`
branches that see or set `record = true`: while `record` stays `false`
the registry entry stays absent. -/
theorem step_call2recs_none (s : St) (e : Ev) (h : s.app.call2recs = none)
    (hrec : (step s e).st.callVars.record = false) :
    (step s e).st.app.call2recs = none := by
  cases e with
  | create d => cases d <;> simpa [step, on_create] using h
  | park d => cases d <;> simpa [step, on_park] using h
  | answer d =>
      cases d <;> simp only [step, on_answer] at hrec ⊢ <;> split <;>
        simp_all [trigger_playback, St.setLeg, St.leg, Dir.other]
  | playStart d fp =>
      cases d <;> simp only [step, on_play] at hrec ⊢ <;> (repeat' split) <;>
        simp_all [St.setLeg, St.leg]
  | playStop d =>
      cases d <;> simp only [step, on_stop] at hrec ⊢ <;> (repeat' split) <;> simp_all
  | recStart d =>
      cases d <;> simp_all [step, on_rec, trigger_playback, St.setLeg, St.leg, Dir.other]
  | recStop d =>
      cases d <;>
        simp only [step, on_recstop, St.setLeg, St.leg, Dir.other] at hrec ⊢ <;>
        (repeat' split) <;> simp_all

/-- Over any event sequence starting with an absent registry entry, if
the `record` flag ends up unset then no completion callback was ever
delivered along the way. -/
theorem run_no_callback_of_record_false (evs : List Ev) (s : St)
    (h : s.app.call2recs = none)
    (hrec : (runEvents s evs).1.callVars.record = false)
    (a b c : String) : Action.invokeCallback a b c ∉ (runEvents s evs).2 := by
  induction evs generalizing s with
  | nil => simp [runEvents]
  | cons e rest ih =>
      simp only [runEvents] at hrec ⊢
      have hstep : (step s e).st.callVars.record = false := by
        cases hb : (step s e).st.callVars.record with
        | false => rfl
        | true =>
            have := run_record_mono rest (step s e).st hb
            rw [this] at hrec
            cases hrec
      rw [List.mem_append]
      rintro (hmem | hmem)
      · exact step_no_callback s e h a b c hmem
      · exact ih (step s e).st (step_call2recs_none s e h hstep) hrec hmem

end Switchio

namespace Switchio

/-- Claim C1: for every call in which both legs start recording (both
recording paths registered, both legs' `recorded` flags set `false` by
RECORD_START, a callback configured), processing the two legs'
RecordStop events sequentially in either order delivers the completion
callback exactly once, carrying the host plus the caller and callee
recording paths. -/
theorem C1_completion_exactly_once (s : St) (cp ce : String)
    (h1 : s.inb.recorded = some false)
    (h2 : s.out.recorded = some false)
    (h3 : s.app.call2recs = some { caller := some cp, callee := some ce })
    (h4 : s.app.hasCallback = true) :
    ((runEvents s [Ev.recStop Dir.inbound, Ev.recStop Dir.outbound]).2.filter Action.isCallback
        = [Action.invokeCallback s.app.host cp ce]) ∧
    ((runEvents s [Ev.recStop Dir.outbound, Ev.recStop Dir.inbound]).2.filter Action.isCallback
        = [Action.invokeCallback s.app.host cp ce]) := by
  simp [runEvents, step, on_recstop, St.setLeg, St.leg, Dir.other, h1, h2, h3, h4,
        Action.isCallback, List.filter]

/-- Claim C1 witness: the double-recording call delivers exactly one
callback in both RecordStop orders. -/
theorem C1_witness :
    ((runEvents recReadySt [Ev.recStop Dir.inbound, Ev.recStop Dir.outbound]).2.filter
        Action.isCallback = [Action.invokeCallback "fs-host" "cp" "ce"]) ∧
    ((runEvents recReadySt [Ev.recStop Dir.outbound, Ev.recStop Dir.inbound]).2.filter
        Action.isCallback = [Action.invokeCallback "fs-host" "cp" "ce"]) :=
  C1_completion_exactly_once recReadySt "cp" "ce" rfl rfl rfl rfl

/-- Claim C2 (amended): for every period >= 1 the rate gate marks
exactly one call per consecutive window of `period` answered inbound
legs, namely the LAST call of the window (the counter is incremented
before the `count % rate == 0` test); the counter resets to 0 whenever
it marks a call, and with period 1 every call is marked. -/
theorem C2_rate_gate_windows (rate k j : Nat) (h1 : 1 ≤ rate) (h2 : j < rate) :
    (gateMarked rate (k * rate + j) = true ↔ j = rate - 1) ∧
    (∀ i, gateMarked rate i = true → gateState rate (i + 1) = 0) ∧
    (∀ i, gateMarked 1 i = true) := by
  refine ⟨?_, ?_, ?_⟩
  · rw [gateMarked_iff rate _ h1]
    have hmod : (k * rate + j + 1) % rate = (j + 1) % rate := by
      rw [Nat.add_assoc, Nat.mul_comm, Nat.mul_add_mod]
    rw [hmod]
    constructor
    · intro hz
      by_cases hj : j + 1 < rate
      · rw [Nat.mod_eq_of_lt hj] at hz
        omega
      · omega
    · intro hj
      have : j + 1 = rate := by omega
      rw [this, Nat.mod_self]
  · intro i hm
    by_cases hc : (gateState rate i + 1) % rate == 0
    · simp [gateState, gateStep, hc]
    · simp [gateMarked, gateStep, hc] at hm
  · intro i
    rw [gateMarked_iff 1 i (le_refl 1), Nat.mod_one]

/-- Claim C2 witness: with period 2, window 0 is marked exactly at its
last call (index 1); a mark resets the counter; period 1 marks all. -/
theorem C2_witness :
    (gateMarked 2 1 = true ↔ 1 = 2 - 1) ∧ gateState 2 2 = 0 ∧ gateMarked 1 5 = true := by
  have t := C2_rate_gate_windows 2 0 1 (by decide) (by decide)
  exact ⟨t.1, t.2.1 1 (by decide), t.2.2 5⟩

/-- Claim C2 counterexample: with period 2 the first call of the first
window (index 0) is NOT marked - the marked call is the second (index
1), refuting that the marked call is always the first of its window. -/
theorem C2_counterexample : gateMarked 2 0 = false ∧ gateMarked 2 1 = true := by decide

/-- Claim C3 (amended): `playback_count` is incremented exactly once
per PlaybackStop of a leg whose clip tag is `signal` and never for a
silence-tagged PlaybackStop; but the incrementing stop is on whichever
leg carries the signal tag, and in the orchestration the first
reference-clip play lands on the OUTBOUND leg (the two-hop trigger
bounces silence to the inbound peer, which starts the reference clip
back on the outbound leg). -/
theorem C3_playback_count (s : St) (d : Dir) (n : Nat)
    (hsig : (s.leg d).clip = some Clip.signal)
    (hn : s.callVars.playback_count = some n) :
    ((on_stop s d).st.callVars.playback_count = some (n + 1)) ∧
    (∀ (t : St) (e : Dir), (t.leg e).clip = some Clip.silence →
        (on_stop t e).st = t ∧ (on_stop t e).acts = []) ∧
    (((runEvents (initSt 2) evsSig).1.leg Dir.outbound).clip = some Clip.signal ∧
      (runEvents (initSt 2) evsSig).1.callVars.playback_count = some 0 ∧
      (step (runEvents (initSt 2) evsSig).1 (Ev.playStop Dir.outbound)).st.callVars.playback_count
        = some 1) := by
  refine ⟨?_, ?_, by decide⟩
  · simp only [on_stop, hsig, hn]
    (repeat' split) <;> rfl
  · intro t e he
    simp [on_stop, he]

/-- Claim C3 witness: a signal-tagged stop bumps the count from 0
to 1. -/
theorem C3_witness :
    (on_stop sigReadySt Dir.outbound).st.callVars.playback_count = some (0 + 1) :=
  (C3_playback_count sigReadySt Dir.outbound 0 rfl rfl).1

/-- Claim C3 counterexample: running the protocol-order events of an
unrecorded call leaves the signal tag on the OUTBOUND leg, and the
PlaybackStop that increments `playback_count` from 0 to 1 is the
outbound leg's - refuting that every incrementing PlaybackStop occurs
on the inbound leg. -/
theorem C3_counterexample :
    ((runEvents (initSt 2) evsSig).1.leg Dir.outbound).clip = some Clip.signal ∧
    (runEvents (initSt 2) evsSig).1.callVars.playback_count = some 0 ∧
    (step (runEvents (initSt 2) evsSig).1 (Ev.playStop Dir.outbound)).st.callVars.playback_count
      = some 1 := by
  decide

/-- Claim C4: `__setduration__` computes `divmod(targetDuration,
clipLength)` and clamps the remainder up to 1.0, so the stored tail is
always at least 1.0, and `iterations * clipLength + tail =
targetDuration` whenever the remainder was at least 1.0; in particular
`divmod(10, 4.25) = (2, 1.5)` and `divmod(4, 4.25) = (0, 4.0)`. -/
theorem C4_setduration_divmod (value c : Rat) (hc : 0 < c) :
    1 ≤ (setduration c value).2 ∧
    (1 ≤ value - ((⌊value / c⌋ : Int) : Rat) * c →
        (setduration c value).1 * c + (setduration c value).2 = value) ∧
    setduration (17 / 4) 10 = (2, 3 / 2) ∧
    setduration (17 / 4) 4 = (0, 4) := by
  refine ⟨?_, ?_, ?_, ?_⟩
  · unfold setduration
    dsimp only
    split
    · exact le_refl 1
    · exact le_of_not_lt (by assumption)
  · intro h
    unfold setduration
    dsimp only
    rw [if_neg (not_lt.mpr h)]
    ring
  · unfold setduration
    norm_num
  · unfold setduration
    norm_num

/-- Claim C4 witness: at `targetDuration = 10`, `clipLength = 4.25` the
tail is at least 1.0 and the reconstruction identity holds. -/
theorem C4_witness :
    0 < (17 / 4 : Rat) ∧
    1 ≤ (setduration (17 / 4) 10).2 ∧
    (setduration (17 / 4) 10).1 * (17 / 4) + (setduration (17 / 4) 10).2 = 10 := by
  have t := C4_setduration_divmod 10 (17 / 4) (by norm_num)
  exact ⟨by norm_num, t.1, t.2.1 (by norm_num)⟩

/-- Claim C5: a call whose `record` flag is (still) unset never has the
completion callback invoked by any event sequence, and the
PlaybackStop whose increment reaches the configured iteration count
schedules a hangup of that leg with a 0.5 second delay. -/
theorem C5_not_recorded_no_callback :
    (∀ (rate : Nat) (evs : List Ev),
        (runEvents (initSt rate) evs).1.callVars.record = false →
        ∀ a b c, Action.invokeCallback a b c ∉ (runEvents (initSt rate) evs).2) ∧
    (∀ (s : St) (d : Dir) (n : Nat) (its : Rat),
        (s.leg d).clip = some Clip.signal →
        s.callVars.playback_count = some n →
        s.callVars.iterations = some its →
        ¬ (((n + 1 : Nat) : Rat) < its) →
        s.callVars.record = false →
        (on_stop s d).acts = [Action.schedHangup (uuidOf d) (1 / 2)]) := by
  constructor
  · intro rate evs h a b c
    exact run_no_callback_of_record_false evs (initSt rate) rfl h a b c
  · intro s d n its h1 h2 h3 h4 h5
    simp only [on_stop, h1, h2, h3, h5]
    push_cast at h4
    simp [h4]

/-- Claim C5 witness: on the empty run no callback is delivered, and
the final signal stop of an unrecorded call schedules the 0.5 s
hangup. -/
theorem C5_witness :
    (Action.invokeCallback "h" "a" "b" ∉ (runEvents (initSt 1) []).2) ∧
    (on_stop sigReadySt Dir.outbound).acts
      = [Action.schedHangup (uuidOf Dir.outbound) (1 / 2)] := by
  obtain ⟨p1, p2⟩ := C5_not_recorded_no_callback
  exact ⟨p1 1 [] rfl "h" "a" "b",
         p2 sigReadySt Dir.outbound 0 1 rfl rfl rfl (by decide) rfl⟩

/-- Claim C6 (amended): a RecordStop for a leg of a call that never
reached the recording-enabled branch (no `call2recs` entry, peer never
recorded) marks the leg recorded and schedules the 0.5 s hangup, then
raises `KeyError` on the missing registry entry instead of completing
as a silent no-op; the completion callback is not invoked, with partial
paths or otherwise. -/
theorem C6_missing_entry (s : St) (d : Dir)
    (h1 : s.app.call2recs = none)
    (h2 : (s.leg d.other).recorded = none) :
    (on_recstop s d).err = some "KeyError: call2recs" ∧
    (∀ h a b, Action.invokeCallback h a b ∉ (on_recstop s d).acts) ∧
    ((on_recstop s d).st.leg d).recorded = some true ∧
    (on_recstop s d).acts = [Action.schedHangup (uuidOf d) (1 / 2)] := by
  cases d <;>
    simp_all [on_recstop, St.setLeg, St.leg, Dir.other]

/-- Claim C6 witness: a fresh call's spurious inbound RecordStop hits
the `KeyError` path without delivering a callback. -/
theorem C6_witness :
    (on_recstop (initSt 1) Dir.inbound).err = some "KeyError: call2recs" ∧
    Action.invokeCallback "h" "a" "b" ∉ (on_recstop (initSt 1) Dir.inbound).acts ∧
    ((on_recstop (initSt 1) Dir.inbound).st.leg Dir.inbound).recorded = some true ∧
    (on_recstop (initSt 1) Dir.inbound).acts
      = [Action.schedHangup (uuidOf Dir.inbound) (1 / 2)] := by
  obtain ⟨e1, e2, e3, e4⟩ := C6_missing_entry (initSt 1) Dir.inbound rfl rfl
  exact ⟨e1, e2 "h" "a" "b", e3, e4⟩

/-- Claim C6 counterexample: on a call that never enabled recording the
RecordStop reaction fails (raises `KeyError`) rather than completing as
a silent no-op. -/
theorem C6_counterexample : ¬ (on_recstop (initSt 1) Dir.inbound).err = none := by decide

/-- Claim C7 (amended): the RecordStop reaction never removes the
call's entry from `call2recs` - including the reaction in which the
completion callback fires - so completed calls leave their recording
paths behind in the registry. -/
theorem C7_no_eviction (s : St) (d : Dir) :
    (on_recstop s d).st.app.call2recs = s.app.call2recs := by
  cases d <;>
    simp only [on_recstop, St.setLeg, St.leg, Dir.other] <;>
    (repeat' split) <;> rfl

/-- Claim C7 counterexample: a RecordStop that fires the completion
callback leaves the call's `call2recs` entry in place, refuting the
claimed eviction. -/
theorem C7_counterexample :
    (on_recstop { app := { call2recs := some { caller := some "cp", callee := some "ce" } },
                  inb := { recorded := some true } } Dir.outbound).acts
      = [Action.schedHangup outUuid (1 / 2), Action.invokeCallback "fs-host" "cp" "ce"] ∧
    (on_recstop { app := { call2recs := some { caller := some "cp", callee := some "ce" } },
                  inb := { recorded := some true } } Dir.outbound).st.app.call2recs
      = some { caller := some "cp", callee := some "ce" } :=
  ⟨rfl, rfl⟩

/-- Claim C8: construction accepts no callback or a one-argument
function, and rejects (fails the `prepost` assertions for) anything
that is not a function taking exactly one argument, before any call
event is processed. -/
theorem C8_prepost_callback_validation :
    prepostCheck none = true ∧
    ∀ c : PyCallable,
      (prepostCheck (some c) = true ↔ (c.isFunction = true ∧ c.argCount = 1)) := by
  constructor
  · rfl
  · intro c
    simp [prepostCheck]

/-- Claim C9: `trigger_playback` starts the infinite silence stream on
the peer of the given leg, tags the peer's clip as silence, resets
`playback_count` to 0, and does not yet start anything on the original
leg; the subsequent PlaybackStart(silence) reaction on the peer keeps
the peer tagged silence, breaks the running app on the original leg and
starts the reference clip there - so the reference clip begins on the
original leg only after the silence stream has started. -/
theorem C9_trigger_indirection (s : St) (d : Dir)
    (hne : s.app.audiofile ≠ s.app.silence) :
    ((trigger_playback s d).2 = [Action.playback (uuidOf d.other) s.app.silence]) ∧
    (((trigger_playback s d).1.leg d.other).clip = some Clip.silence) ∧
    ((trigger_playback s d).1.callVars.playback_count = some 0) ∧
    (∀ f, Action.playback (uuidOf d) f ∉ (trigger_playback s d).2) ∧
    (((on_play (trigger_playback s d).1 d.other s.app.silence).st.leg d.other).clip
        = some Clip.silence) ∧
    ((on_play (trigger_playback s d).1 d.other s.app.silence).acts
        = [Action.breakapp (uuidOf d), Action.playback (uuidOf d) s.app.audiofile]) := by
  have hb : (s.app.silence == s.app.audiofile) = false := by
    simp [beq_eq_false_iff_ne]
    exact fun h => hne h.symm
  cases d <;>
    simp_all [trigger_playback, on_play, St.setLeg, St.leg, Dir.other, uuidOf,
              inbUuid, outUuid]

/-- Claim C9 witness: triggering playback on the outbound leg of a
fresh call plays silence on the inbound peer only, and the peer's
silence PlaybackStart starts the reference clip back on the outbound
leg. -/
theorem C9_witness :
    ((trigger_playback (initSt 1) Dir.outbound).2
        = [Action.playback (uuidOf Dir.inbound) (initSt 1).app.silence]) ∧
    (((trigger_playback (initSt 1) Dir.outbound).1.leg Dir.inbound).clip
        = some Clip.silence) ∧
    ((trigger_playback (initSt 1) Dir.outbound).1.callVars.playback_count = some 0) ∧
    (Action.playback (uuidOf Dir.outbound) "x" ∉ (trigger_playback (initSt 1) Dir.outbound).2) ∧
    (((on_play (trigger_playback (initSt 1) Dir.outbound).1 Dir.inbound
          (initSt 1).app.silence).st.leg Dir.inbound).clip = some Clip.silence) ∧
    ((on_play (trigger_playback (initSt 1) Dir.outbound).1 Dir.inbound
          (initSt 1).app.silence).acts
        = [Action.breakapp (uuidOf Dir.outbound),
           Action.playback (uuidOf Dir.outbound) (initSt 1).app.audiofile]) := by
  obtain ⟨e1, e2, e3, e4, e5, e6⟩ :=
    C9_trigger_indirection (initSt 1) Dir.outbound (by decide)
  exact ⟨e1, e2, e3, e4 "x", e5, e6⟩

/-- Claim C10: the outbound ChannelAnswer reaction branches solely on
the call's `record` flag: when the flag is unset it triggers the
playback sequence and issues no caller-leg recording; when set it
records the caller; the inbound ChannelAnswer never records the caller
leg, so a call whose outbound answer precedes its inbound answer never
records the caller even when the gate later marks the call (shown
concretely with period 1). -/
theorem C10_outbound_answer_branch :
    (∀ s : St, s.callVars.record = false →
        ((on_answer s Dir.outbound).acts = [Action.playback inbUuid s.app.silence] ∧
          ∀ f b, Action.startRecord outUuid f b ∉ (on_answer s Dir.outbound).acts)) ∧
    (∀ s : St, s.callVars.record = true →
        (on_answer s Dir.outbound).acts
          = [Action.startRecord outUuid
              (s.app.recsdir ++ "/caller_" ++ outUuid ++ ".wav") s.app.stereo]) ∧
    (∀ (s : St) (f : String) (b : Bool),
        Action.startRecord outUuid f b ∉ (on_answer s Dir.inbound).acts) ∧
    ((runEvents (initSt 1) [Ev.answer Dir.outbound, Ev.answer Dir.inbound]).2
        = [Action.playback inbUuid "silence_stream://0",
           Action.startRecord inbUuid "/recs/callee_callee-sess.wav" false] ∧
      (runEvents (initSt 1) [Ev.answer Dir.outbound, Ev.answer Dir.inbound]).1.callVars.record
        = true) := by
  refine ⟨?_, ?_, ?_, by decide⟩
  · intro s hrec
    constructor
    · simp [on_answer, hrec, trigger_playback, Dir.other, uuidOf]
    · intro f b
      simp [on_answer, hrec, trigger_playback, Dir.other, uuidOf]
  · intro s hrec
    simp [on_answer, hrec]
  · intro s f b
    simp only [on_answer]
    split
    · simp [inbUuid, outUuid]
    · simp

/-- Claim C10 witness: on a fresh call with period 2 the outbound
answer triggers playback without recording the caller, the inbound
answer never records the caller, and with the flag set the caller is
recorded. -/
theorem C10_witness :
    ((on_answer (initSt 2) Dir.outbound).acts
        = [Action.playback inbUuid (initSt 2).app.silence]) ∧
    (Action.startRecord outUuid "f" true ∉ (on_answer (initSt 2) Dir.outbound).acts) ∧
    (Action.startRecord outUuid "f" true ∉ (on_answer (initSt 2) Dir.inbound).acts) ∧
    ((on_answer { callVars := { record := true } } Dir.outbound).acts
        = [Action.startRecord outUuid
            (({} : AppSt).recsdir ++ "/caller_" ++ outUuid ++ ".wav") ({} : AppSt).stereo]) := by
  obtain ⟨p1, p2, p3, _⟩ := C10_outbound_answer_branch
  obtain ⟨q1, q2⟩ := p1 (initSt 2) rfl
  exact ⟨q1, q2 "f" true, p3 (initSt 2) "f" true,
         p2 { callVars := { record := true } } rfl⟩

end Switchio
